import Mathlib

/-!
Spec2Proof: a shallow embedding of the reconciliation core of the
oran-hwmgr-plugin controller, together with theorems settling the frozen
claims about it.

The embedding follows the Go source files:
  adaptors/metal3/adaptor.go   (both the metal3 and the loopback adaptor)
  adaptors/metal3/inventory.go
  adaptors/dell-hwmgr/node.go
  internal/controller/utils (nodepool helpers, node CR helpers)

Conventions of the embedding:
  * Go machine integers that never overflow in the modelled code
    (generations, counters) are Int or Nat.
  * Go `error` values are an inductive `GoErr`; `fmt.Errorf("ctx: %w", err)`
    becomes `GoErr.wrap "ctx" err`.
  * Go time stamps are abstract ticks (`Nat`), supplied as an explicit
    `now` argument where the code takes a fresh timestamp.
  * Calls to the cluster API server (Get/List/Update) are modelled by
    explicit result parameters: a schedule of `StoreAttempt`s describes, for
    each retry attempt, what the fresh read returned and whether the write
    hit an optimistic-concurrency conflict.
  * The Go identifier `namespace` is a Lean keyword and is rendered
    `nspace`; Go map fields are association lists.
-/

set_option autoImplicit false

namespace OranHwmgr

/-! ### Conditions (metav1.Condition and hwmgmt condition constants) -/

/-- metav1.ConditionStatus: one of True, False, Unknown. -/
inductive CondStatus where
  | condTrue
  | condFalse
  | condUnknown
deriving DecidableEq, Repr

/-- metav1.Condition: a typed, timestamped status flag attached to a
resource.  LastTransitionTime is an abstract tick. -/
structure Condition where
  condType : String
  status : CondStatus
  reason : String
  message : String
  lastTransitionTime : Nat
deriving DecidableEq, Repr

/-- hwmgmtv1alpha1.Provisioned condition type. -/
def Provisioned : String := "Provisioned"

/-- hwmgmtv1alpha1.Configured condition type. -/
def Configured : String := "Configured"

/-- hwmgmtv1alpha1.Failed condition reason. -/
def Failed : String := "Failed"

/-- hwmgmtv1alpha1.InProgress condition reason. -/
def InProgress : String := "InProgress"

/-- hwmgmtv1alpha1.Completed condition reason. -/
def Completed : String := "Completed"

/-- hwmgmtv1alpha1.ConfigApplied condition reason. -/
def ConfigApplied : String := "ConfigApplied"

/-- hwmgmtv1alpha1.ConfigSuccess message constant. -/
def ConfigSuccess : String := "ConfigSuccess"

/-- meta.FindStatusCondition: first condition in the list whose Type
matches, if any. -/
def findStatusCondition (conds : List Condition) (t : String) : Option Condition :=
  conds.find? (fun c => c.condType = t)

/-- Modelled from the spec: the body of utils.SetStatusCondition is not under
src/ (only its call sites are).  Spec section 4.1: scan the ordered list for
an entry with matching Type; if absent, append a new entry with a fresh
transition timestamp; if present and Status or Reason differ, replace
Status/Reason/Message in place and refresh the timestamp; if Status and
Reason are unchanged, update only Message, leaving the timestamp untouched.
The argument order (type, reason, status, message) follows the call sites in
the source. -/
def setStatusCondition (t r : String) (s : CondStatus) (msg : String) (now : Nat) :
    List Condition → List Condition
  | [] => [{ condType := t, status := s, reason := r, message := msg,
             lastTransitionTime := now }]
  | c :: rest =>
    if c.condType = t then
      (if c.status ≠ s ∨ c.reason ≠ r then
        { c with status := s, reason := r, message := msg, lastTransitionTime := now }
      else
        { c with message := msg }) :: rest
    else
      c :: setStatusCondition t r s msg now rest

/-! ### Go errors -/

/-- Go `error` values as the reconciliation core distinguishes them:
an optimistic-concurrency conflict, a not-found error, a plain message, or
an error wrapped with context (`fmt.Errorf("ctx: %w", err)`). -/
inductive GoErr where
  | conflict
  | notFound
  | msg : String → GoErr
  | wrap : String → GoErr → GoErr
deriving DecidableEq, Repr

/-- Rendering of a Go error to a string, as `%v`/`%w` formatting does. -/
def renderErr : GoErr → String
  | .conflict => "conflict"
  | .notFound => "not found"
  | .msg s => s
  | .wrap s e => s ++ ": " ++ renderErr e

/-- k8s errors.IsNotFound. -/
def isNotFound : GoErr → Bool
  | .notFound => true
  | _ => false

/-! ### NodePool data model -/

/-- status.HwMgrPlugin sub-status: the plugin-observed generation. -/
structure HwMgrPluginStatus where
  observedGeneration : Int
deriving DecidableEq, Repr

/-- NodePool status: ordered Conditions, Properties, SelectedPools and the
HwMgrPlugin sub-status. -/
structure NodePoolStatus where
  conditions : List Condition := []
  properties : List (String × String) := []
  selectedPools : List String := []
  hwMgrPlugin : HwMgrPluginStatus := { observedGeneration := 0 }
deriving DecidableEq, Repr

/-- The NodePool cluster object, restricted to the fields the
reconciliation core reads: metadata (name, generation, finalizers,
apiVersion/kind/uid for owner references), immutable spec fields the
modelled operations consume, and the mutable status. -/
structure NodePool where
  name : String
  apiVersion : String := ""
  kind : String := ""
  uid : String := ""
  generation : Int := 0
  finalizers : List String := []
  hwMgrId : String := ""
  status : NodePoolStatus := {}
deriving DecidableEq, Repr

/-! ### Node data model -/

/-- metav1.OwnerReference as CreateNode populates it. -/
structure OwnerReference where
  apiVersion : String
  kind : String
  name : String
  uid : String
  blockOwnerDeletion : Option Bool
deriving DecidableEq, Repr

/-- hwmgmtv1alpha1.BMC status sub-structure. -/
structure BMC where
  address : String
  credentialsName : String
deriving DecidableEq, Repr

/-- hwmgmtv1alpha1.Interface. -/
structure Interface where
  name : String := ""
  label : String := ""
  macAddress : String := ""
deriving DecidableEq, Repr

/-- hwmgmtv1alpha1.NodeSpec (immutable once created). -/
structure NodeSpec where
  nodePool : String := ""
  groupName : String := ""
  hwProfile : String := ""
  hwMgrId : String := ""
  hwMgrNodeNs : String := ""
  hwMgrNodeId : String := ""
deriving DecidableEq, Repr

/-- hwmgmtv1alpha1.NodeStatus. -/
structure NodeStatus where
  bmc : Option BMC := none
  interfaces : List Interface := []
  hostname : String := ""
  hwProfile : String := ""
  conditions : List Condition := []
deriving DecidableEq, Repr

/-- The Node cluster object, one per allocated physical machine. -/
structure Node where
  name : String
  nspace : String := ""
  ownerReferences : List OwnerReference := []
  spec : NodeSpec := {}
  status : NodeStatus := {}
deriving DecidableEq, Repr

/-! ### The node-pool FSM classifiers (adaptors/metal3/adaptor.go) -/

/-- fsmAction: the four classifications of a NodePool observation. -/
inductive FsmAction where
  | create
  | processing
  | specChanged
  | noop
deriving DecidableEq, Repr

/-- metal3 Adaptor.determineAction (adaptors/metal3/adaptor.go:73).
Empty Conditions list means Create; a Provisioned condition with
Status=True is SpecChanged on generation drift and Noop otherwise; a
Provisioned condition with Reason=Failed is Noop; any other Provisioned
condition is Processing; no Provisioned condition is Noop. -/
def metal3DetermineAction (np : NodePool) : FsmAction :=
  if np.status.conditions.length = 0 then
    .create
  else
    match findStatusCondition np.status.conditions Provisioned with
    | some provisionedCondition =>
      if provisionedCondition.status = .condTrue then
        if np.generation ≠ np.status.hwMgrPlugin.observedGeneration then
          .specChanged
        else
          .noop
      else if provisionedCondition.reason = Failed then
        .noop
      else
        .processing
    | none => .noop

/-- loopback Adaptor.determineAction (adaptors/metal3/adaptor.go:261 of the
concatenated source).  Identical to the metal3 classifier except that it has
no Reason=Failed branch: any Provisioned condition with Status≠True is
classified Processing. -/
def loopbackDetermineAction (np : NodePool) : FsmAction :=
  if np.status.conditions.length = 0 then
    .create
  else
    match findStatusCondition np.status.conditions Provisioned with
    | some provisionedCondition =>
      if provisionedCondition.status = .condTrue then
        if np.generation ≠ np.status.hwMgrPlugin.observedGeneration then
          .specChanged
        else
          .noop
      else
        .processing
    | none => .noop

/-- ctrl.Result, restricted to the requeue flag. -/
structure CtrlResult where
  requeue : Bool
deriving DecidableEq, Repr

/-- Modelled from the spec: utils.DoNotRequeue is not under src/ (only its
call sites are); it produces the do-not-requeue reconciliation result. -/
def doNotRequeue : CtrlResult := { requeue := false }

/-- The outcome of a HandleNodePool call: a controller result and an
optional error. -/
abbrev HandlerResult := CtrlResult × Option GoErr

/-- metal3 Adaptor.HandleNodePool (adaptors/metal3/adaptor.go:104).  The
three per-state handlers (HandleNodePoolCreate / Processing / SpecChanged)
are not under src/ and are taken as parameters; the Noop branch returns the
do-not-requeue result with nil error without calling any of them. -/
def metal3HandleNodePool
    (hCreate hProcessing hSpecChanged : NodePool → HandlerResult)
    (np : NodePool) : HandlerResult :=
  match metal3DetermineAction np with
  | .create => hCreate np
  | .processing => hProcessing np
  | .specChanged => hSpecChanged np
  | .noop => (doNotRequeue, none)

/-- loopback Adaptor.HandleNodePool (same shape as the metal3 one, driven by
the loopback classifier). -/
def loopbackHandleNodePool
    (hCreate hProcessing hSpecChanged : NodePool → HandlerResult)
    (np : NodePool) : HandlerResult :=
  match loopbackDetermineAction np with
  | .create => hCreate np
  | .processing => hProcessing np
  | .specChanged => hSpecChanged np
  | .noop => (doNotRequeue, none)

/-! ### BareMetalHost data model (metal3 API, fields the inventory reads) -/

/-- metal3 provisioning states appearing in the inventory allow-list plus
the remaining states a host can be in. -/
inductive ProvisioningState where
  | stateNone
  | unmanaged
  | registering
  | inspecting
  | matchProfile
  | available
  | preparing
  | provisioning
  | provisioned
  | externallyProvisioned
  | deprovisioning
  | deleting
deriving DecidableEq, Repr

/-- metal3 CPU hardware details (fields the inventory projection reads). -/
structure CPU where
  arch : String := ""
  count : Int := 0
  model : String := ""
deriving DecidableEq, Repr

/-- metal3 HardwareSystemVendor. -/
structure SystemVendor where
  manufacturer : String := ""
  productName : String := ""
  serialNumber : String := ""
deriving DecidableEq, Repr

/-- metal3 HardwareDetails (fields the inventory projection reads). -/
structure HardwareDetails where
  ramMebibytes : Int := 0
  cpu : CPU := {}
  systemVendor : SystemVendor := {}
deriving DecidableEq, Repr

/-- metal3 BareMetalHostStatus, restricted to what the inventory reads. -/
structure BMHStatus where
  provisioningState : ProvisioningState := .stateNone
  poweredOn : Bool := false
  hardwareDetails : Option HardwareDetails := none
deriving DecidableEq, Repr

/-- metal3 BareMetalHost.  Go maps with a possible nil value are
`Option` association lists: `none` models a nil map, and indexing a nil
map yields the empty string as in Go. -/
structure BareMetalHost where
  name : String
  nspace : String := ""
  labels : Option (List (String × String)) := none
  annots : Option (List (String × String)) := none
  status : BMHStatus := {}
deriving DecidableEq, Repr

/-- Go map indexing with the string zero value as default. -/
def lookupDefault (m : List (String × String)) (key : String) : String :=
  match m.lookup key with
  | some v => v
  | none => ""

/-- Indexing of the (possibly nil) Labels map of a host. -/
def bmhLabel (bmh : BareMetalHost) (key : String) : String :=
  match bmh.labels with
  | some m => lookupDefault m key
  | none => ""

/-- Indexing of the (possibly nil) Annotations map of a host. -/
def bmhAnnot (bmh : BareMetalHost) (key : String) : String :=
  match bmh.annots with
  | some m => lookupDefault m key
  | none => ""

/-! ### Inventory label/annotation keys (adaptors/metal3/inventory.go) -/

def LabelPrefixResources : String := "resources.oran.openshift.io/"
def LabelResourcePoolID : String := LabelPrefixResources ++ "resourcePoolId"
def LabelSiteID : String := LabelPrefixResources ++ "siteId"
def LabelPrefixResourceSelector : String := "resourceselector.oran.openshift.io/"
def AnnotationPrefixResourceInfo : String := "resourceinfo.oran.openshift.io/"
def AnnotationResourceInfoDescription : String := AnnotationPrefixResourceInfo ++ "description"
def AnnotationResourceInfoPartNumber : String := AnnotationPrefixResourceInfo ++ "partNumber"
def AnnotationResourceInfoGlobalAssetId : String := AnnotationPrefixResourceInfo ++ "globalAssetId"
def AnnotationsResourceInfoGroups : String := AnnotationPrefixResourceInfo ++ "groups"

/-! ### Inventory projection getters (adaptors/metal3/inventory.go)

The generated invserver enum types are string-based in Go; they are
rendered as `String` here, with the generated constants as definitions. -/

def ResourceInfoAdminStateUNKNOWN : String := "UNKNOWN"
def ResourceInfoOperationalStateUNKNOWN : String := "UNKNOWN"
def ResourceInfoUsageStateUNKNOWN : String := "UNKNOWN"
def PowerStateON : String := "ON"
def PowerStateOFF : String := "OFF"

/-- invserver.ProcessorInfo. -/
structure ProcessorInfo where
  architecture : Option String := none
  cores : Option Int := none
  manufacturer : Option String := none
  model : Option String := none
deriving DecidableEq, Repr

/-- invserver.ResourceInfo (Go zero values as field defaults). -/
structure ResourceInfo where
  adminState : String := ""
  description : String := ""
  globalAssetId : Option String := none
  groups : Option (List String) := none
  hwProfile : String := ""
  labels : Option (List (String × String)) := none
  memory : Int := 0
  model : String := ""
  name : String := ""
  operationalState : String := ""
  partNumber : String := ""
  powerState : Option String := none
  processors : List ProcessorInfo := []
  resourceId : String := ""
  resourcePoolId : String := ""
  serialNumber : String := ""
  tags : Option (List String) := none
  usageState : String := ""
  vendor : String := ""
deriving DecidableEq, Repr

/-- invserver.ResourcePoolInfo. -/
structure ResourcePoolInfo where
  resourcePoolId : String
  description : String
  name : String
  siteId : Option String
deriving DecidableEq, Repr

def getResourceInfoAdminState (_bmh : BareMetalHost) : String :=
  ResourceInfoAdminStateUNKNOWN

def getResourceInfoDescription (bmh : BareMetalHost) : String :=
  match bmh.annots with
  | some m => lookupDefault m AnnotationResourceInfoDescription
  | none => ""

def getResourceInfoGlobalAssetId (bmh : BareMetalHost) : Option String :=
  match bmh.annots with
  | some m => some (lookupDefault m AnnotationResourceInfoGlobalAssetId)
  | none => some ""

/-- Leading-space stripping, as the split regex consumes spaces after a
comma. -/
def trimLeadingSpaces (s : String) : String :=
  String.mk (s.toList.dropWhile (fun c => c = ' '))

/-- Trailing-space stripping, as the split regex consumes spaces before a
comma. -/
def trimTrailingSpaces (s : String) : String :=
  String.mk ((s.toList.reverse.dropWhile (fun c => c = ' ')).reverse)

/-- Tail pieces of the comma split: every piece after the first loses its
leading spaces, and every piece before another loses its trailing
spaces. -/
def splitGroupsRest : List String → List String
  | [] => []
  | [p] => [trimLeadingSpaces p]
  | p :: rest => trimLeadingSpaces (trimTrailingSpaces p) :: splitGroupsRest rest

/-- The regexp split on a comma with surrounding whitespace used by
getResourceInfoGroups: split on the commas, consuming the spaces adjacent
to each comma. -/
def splitGroups (s : String) : List String :=
  match s.splitOn "," with
  | [] => []
  | [p] => [p]
  | p :: rest => trimTrailingSpaces p :: splitGroupsRest rest

def getResourceInfoGroups (bmh : BareMetalHost) : Option (List String) :=
  match bmh.annots with
  | some m =>
    match m.lookup AnnotationsResourceInfoGroups with
    | some a => some (splitGroups a)
    | none => none
  | none => none

def getResourceInfoLabels (bmh : BareMetalHost) : Option (List (String × String)) :=
  match bmh.labels with
  | some m => some m
  | none => none

def getResourceInfoMemory (bmh : BareMetalHost) : Int :=
  match bmh.status.hardwareDetails with
  | some hd => hd.ramMebibytes
  | none => 0

def getResourceInfoModel (bmh : BareMetalHost) : String :=
  match bmh.status.hardwareDetails with
  | some hd => hd.systemVendor.productName
  | none => ""

def getResourceInfoName (bmh : BareMetalHost) : String :=
  bmh.name

def getResourceInfoOperationalState (_bmh : BareMetalHost) : String :=
  ResourceInfoOperationalStateUNKNOWN

def getResourceInfoPartNumber (bmh : BareMetalHost) : String :=
  match bmh.annots with
  | some m => lookupDefault m AnnotationResourceInfoPartNumber
  | none => ""

def getResourceInfoPowerState (bmh : BareMetalHost) : Option String :=
  some (if bmh.status.poweredOn then PowerStateON else PowerStateOFF)

def getProcessorInfoArchitecture (bmh : BareMetalHost) : Option String :=
  match bmh.status.hardwareDetails with
  | some hd => some hd.cpu.arch
  | none => some ""

def getProcessorInfoCores (bmh : BareMetalHost) : Option Int :=
  match bmh.status.hardwareDetails with
  | some hd => some hd.cpu.count
  | none => none

def getProcessorInfoManufacturer (_bmh : BareMetalHost) : Option String :=
  some ""

def getProcessorInfoModel (bmh : BareMetalHost) : Option String :=
  match bmh.status.hardwareDetails with
  | some hd => some hd.cpu.model
  | none => some ""

def getResourceInfoProcessors (bmh : BareMetalHost) : List ProcessorInfo :=
  match bmh.status.hardwareDetails with
  | some _ =>
    [{ architecture := getProcessorInfoArchitecture bmh,
       cores := getProcessorInfoCores bmh,
       manufacturer := getProcessorInfoManufacturer bmh,
       model := getProcessorInfoModel bmh }]
  | none => []

def getResourceInfoResourceId (bmh : BareMetalHost) : String :=
  bmh.nspace ++ "/" ++ bmh.name

def getResourceInfoResourcePoolId (bmh : BareMetalHost) : String :=
  bmhLabel bmh LabelResourcePoolID

def getResourceInfoResourceProfileId (node : Option Node) : String :=
  match node with
  | some n => n.status.hwProfile
  | none => ""

def getResourceInfoSerialNumber (bmh : BareMetalHost) : String :=
  match bmh.status.hardwareDetails with
  | some hd => hd.systemVendor.serialNumber
  | none => ""

/-- Tags: each label whose key matches the resourceselector prefix
contributes "rest-of-key: value". -/
def getResourceInfoTags (bmh : BareMetalHost) : Option (List String) :=
  some (((bmh.labels).getD []).filterMap (fun p =>
    if p.1.startsWith LabelPrefixResourceSelector then
      some ((p.1.drop LabelPrefixResourceSelector.length) ++ ": " ++ p.2)
    else
      none))

def getResourceInfoUsageState (_bmh : BareMetalHost) : String :=
  ResourceInfoUsageStateUNKNOWN

def getResourceInfoVendor (bmh : BareMetalHost) : String :=
  match bmh.status.hardwareDetails with
  | some hd => hd.systemVendor.manufacturer
  | none => ""

/-- getResourceInfo (adaptors/metal3/inventory.go:217): field-by-field
projection of a host plus its optionally associated Node. -/
def getResourceInfo (bmh : BareMetalHost) (node : Option Node) : ResourceInfo :=
  { adminState := getResourceInfoAdminState bmh,
    description := getResourceInfoDescription bmh,
    globalAssetId := getResourceInfoGlobalAssetId bmh,
    groups := getResourceInfoGroups bmh,
    hwProfile := getResourceInfoResourceProfileId node,
    labels := getResourceInfoLabels bmh,
    memory := getResourceInfoMemory bmh,
    model := getResourceInfoModel bmh,
    name := getResourceInfoName bmh,
    operationalState := getResourceInfoOperationalState bmh,
    partNumber := getResourceInfoPartNumber bmh,
    powerState := getResourceInfoPowerState bmh,
    processors := getResourceInfoProcessors bmh,
    resourceId := getResourceInfoResourceId bmh,
    resourcePoolId := getResourceInfoResourcePoolId bmh,
    serialNumber := getResourceInfoSerialNumber bmh,
    tags := getResourceInfoTags bmh,
    usageState := getResourceInfoUsageState bmh,
    vendor := getResourceInfoVendor bmh }

/-- includeInInventory (adaptors/metal3/inventory.go:241): a host is
eligible iff it carries non-empty resourcePoolId and siteId labels and its
provisioning state is in the allow-list. -/
def includeInInventory (bmh : BareMetalHost) : Bool :=
  if bmh.labels.isNone ∨ bmhLabel bmh LabelResourcePoolID = "" ∨ bmhLabel bmh LabelSiteID = "" then
    false
  else
    match bmh.status.provisioningState with
    | .available | .provisioning | .provisioned | .preparing => true
    | _ => false

/-! ### Inventory query surface (GetResourcePools / GetResources) -/

/-- The triple returned by the inventory queries: records, HTTP status,
error. -/
structure InvResult (α : Type) where
  items : List α
  httpStatus : Nat
  err : Option GoErr
deriving Repr

/-- The pool record GetResourcePools builds for an eligible host: the pool
label is used as id, description and name, the site label as site. -/
def bmhPoolInfo (bmh : BareMetalHost) : ResourcePoolInfo :=
  { resourcePoolId := bmhLabel bmh LabelResourcePoolID,
    description := bmhLabel bmh LabelResourcePoolID,
    name := bmhLabel bmh LabelResourcePoolID,
    siteId := some (bmhLabel bmh LabelSiteID) }

/-- metal3 Adaptor.GetResourcePools (adaptors/metal3/adaptor.go:132).  The
client List call is modelled by its result; a list failure yields 500 and a
wrapped error, success appends one pool record per eligible host. -/
def metal3GetResourcePools (listResult : Except GoErr (List BareMetalHost)) :
    InvResult ResourcePoolInfo :=
  match listResult with
  | .error e =>
    { items := [], httpStatus := 500, err := some (.wrap "failed to get bmh list" e) }
  | .ok bmhList =>
    { items := bmhList.foldl (fun resp bmh =>
        if includeInInventory bmh then resp ++ [bmhPoolInfo bmh] else resp) [],
      httpStatus := 200, err := none }

/-- The BMH-to-Node map built from a node list: each Node carrying a
non-empty backend id and namespace is keyed by "ns/name" of its host. -/
def bmhNodeMapOf (items : List Node) : List (String × Node) :=
  items.foldl (fun nodes node =>
    if node.spec.hwMgrNodeId ≠ "" ∧ node.spec.hwMgrNodeNs ≠ "" then
      nodes ++ [(node.spec.hwMgrNodeNs ++ "/" ++ node.spec.hwMgrNodeId, node)]
    else nodes) []

/-- GetBMHToNodeMap (metal3 node helpers): build the map from the queried
node list, wrapping a query failure. -/
def getBMHToNodeMap (nodelistResult : Except GoErr (List Node)) :
    Except GoErr (List (String × Node)) :=
  match nodelistResult with
  | .error e => .error (.wrap "failed to query node list" e)
  | .ok items => .ok (bmhNodeMapOf items)

/-- GetNodeForBMH: look up the Node allocated on a host, if any. -/
def getNodeForBMH (nodes : List (String × Node)) (bmh : BareMetalHost) : Option Node :=
  nodes.lookup (bmh.nspace ++ "/" ++ bmh.name)

/-- metal3 Adaptor.GetResources (adaptors/metal3/adaptor.go:159).  A failed
node query or a failed host list yields 500 with a wrapped error; success
appends one resource record per eligible host. -/
def metal3GetResources (nodelistResult : Except GoErr (List Node))
    (listResult : Except GoErr (List BareMetalHost)) : InvResult ResourceInfo :=
  match getBMHToNodeMap nodelistResult with
  | .error e =>
    { items := [], httpStatus := 500, err := some (.wrap "failed to query current nodes" e) }
  | .ok nodes =>
    match listResult with
    | .error e =>
      { items := [], httpStatus := 500, err := some (.wrap "failed to get bmh list" e) }
    | .ok bmhList =>
      { items := bmhList.foldl (fun resp bmh =>
          if includeInInventory bmh then
            resp ++ [getResourceInfo bmh (getNodeForBMH nodes bmh)]
          else resp) [],
        httpStatus := 200, err := none }

/-- The loopback backend state read from its configmap: the free-form
resource pools and the per-server data the projection reads. -/
structure LoopbackServerInfo where
  resourcePoolID : String := ""
deriving DecidableEq, Repr

/-- cmResources of the loopback adaptor. -/
structure LoopbackResources where
  resourcePools : List String := []
  nodes : List (String × LoopbackServerInfo) := []
deriving DecidableEq, Repr

/-- loopback Adaptor.GetResourcePools (adaptors/metal3/adaptor.go:315 of the
concatenated source).  A failed read of the current resources yields 503
with a wrapped error; success returns one record per pool with site "n/a". -/
def loopbackGetResourcePools (resourcesResult : Except GoErr LoopbackResources) :
    InvResult ResourcePoolInfo :=
  match resourcesResult with
  | .error e =>
    { items := [], httpStatus := 503, err := some (.wrap "unable to get current resources" e) }
  | .ok resources =>
    { items := resources.resourcePools.foldl (fun resp pool =>
        resp ++ [{ resourcePoolId := pool, description := pool, name := pool,
                   siteId := some "n/a" }]) [],
      httpStatus := 200, err := none }

/-- loopback Adaptor.GetResources.  A failed read of the current resources
yields 503 with a wrapped error; success returns one record per server. -/
def loopbackGetResources (resourcesResult : Except GoErr LoopbackResources) :
    InvResult ResourceInfo :=
  match resourcesResult with
  | .error e =>
    { items := [], httpStatus := 503, err := some (.wrap "unable to get current resources" e) }
  | .ok resources =>
    { items := resources.nodes.foldl (fun resp p =>
        resp ++ [{ resourcePoolId := p.2.resourcePoolID, description := "n/a",
                   name := p.1 }]) [],
      httpStatus := 200, err := none }

/-! ### Retried NodePool status mutations (internal/controller/utils) -/

/-- One attempt of a read-modify-write cycle against the backing store: what
the fresh Get returned (possibly an error), and whether the subsequent
write failed.  A schedule `Nat → StoreAttempt` describes the store as the
retried closure observes it, reflecting concurrent writers between
attempts. -/
structure StoreAttempt where
  getResult : Except GoErr NodePool
  updateResult : Option GoErr
deriving Repr

/-- The body of each retried closure in the nodepool mutation helpers: a
fresh Get of the resource, the mutation applied to that fresh copy, a
write.  On success the value returned is the object written. -/
def nodePoolMutationAttempt (mutate : NodePool → NodePool) (att : StoreAttempt) :
    Except GoErr NodePool :=
  match att.getResult with
  | .error e => .error e
  | .ok fresh =>
    match att.updateResult with
    | some e => .error e
    | none => .ok (mutate fresh)

/-- Modelled from the spec: the body of utils.RetryOnConflictOrRetriable is
not under src/ (only its call sites are).  Spec section 4.2: the wrapper
re-invokes fn whenever the write fails with an optimistic-concurrency
conflict, with a bounded retry count; exhausting retries surfaces the last
error to the caller; a non-retriable error is returned at once. -/
def retryOnConflictOrRetriable (fn : Nat → Except GoErr NodePool) :
    Nat → Nat → Except GoErr NodePool
  | 0, _ => .error .conflict
  | steps + 1, i =>
    match fn i with
    | .ok v => .ok v
    | .error e =>
      if e = .conflict ∧ steps ≠ 0 then
        retryOnConflictOrRetriable fn steps (i + 1)
      else
        .error e

/-- The shared shape of the six retried nodepool mutation helpers: run the
fetch-mutate-write closure under the retry wrapper, and wrap an exhausted
or non-retriable error with the operation context. -/
def retriedNodePoolMutation (mutate : NodePool → NodePool) (wrapMsg : String)
    (schedule : Nat → StoreAttempt) (steps : Nat) : Except GoErr NodePool :=
  match retryOnConflictOrRetriable
      (fun i => nodePoolMutationAttempt mutate (schedule i)) steps 0 with
  | .ok v => .ok v
  | .error e => .error (.wrap wrapMsg e)

/-- The condition mutation UpdateNodePoolStatusCondition applies to the
freshly read nodepool. -/
def condMutator (conditionType conditionReason : String)
    (conditionStatus : CondStatus) (message : String) (now : Nat)
    (fresh : NodePool) : NodePool :=
  { fresh with status :=
    { fresh.status with conditions :=
      (setStatusCondition conditionType conditionReason conditionStatus message now
        fresh.status.conditions) } }

/-- UpdateNodePoolStatusCondition (nodepool utils): per attempt, Get the
nodepool, set the condition on the fresh copy, write the status; on
failure wrap with the operation context naming the nodepool. -/
def updateNodePoolStatusCondition (schedule : Nat → StoreAttempt) (steps : Nat)
    (nodepool : NodePool) (conditionType conditionReason : String)
    (conditionStatus : CondStatus) (message : String) (now : Nat) :
    Except GoErr NodePool :=
  retriedNodePoolMutation
    (condMutator conditionType conditionReason conditionStatus message now)
    ("failed to update nodepool condition: " ++ nodepool.name) schedule steps

/-- UpdateNodePoolProperties: copy the in-memory Properties onto the fresh
copy and write. -/
def updateNodePoolProperties (schedule : Nat → StoreAttempt) (steps : Nat)
    (nodepool : NodePool) : Except GoErr NodePool :=
  retriedNodePoolMutation
    (fun fresh => { fresh with status := { fresh.status with properties := nodepool.status.properties } })
    "failed to update nodepool properties" schedule steps

/-- UpdateNodePoolSelectedPools: copy the in-memory SelectedPools onto the
fresh copy and write. -/
def updateNodePoolSelectedPools (schedule : Nat → StoreAttempt) (steps : Nat)
    (nodepool : NodePool) : Except GoErr NodePool :=
  retriedNodePoolMutation
    (fun fresh => { fresh with status := { fresh.status with selectedPools := nodepool.status.selectedPools } })
    "failed to update nodepool selectedPools" schedule steps

/-- UpdateNodePoolPluginStatus: record the fresh copy generation as the
plugin-observed generation and write. -/
def updateNodePoolPluginStatus (schedule : Nat → StoreAttempt) (steps : Nat) :
    Except GoErr NodePool :=
  retriedNodePoolMutation
    (fun fresh => { fresh with status := { fresh.status with hwMgrPlugin := { observedGeneration := fresh.generation } } })
    "failed to update nodepool condition" schedule steps

/-- The NodepoolFinalizer token. -/
def NodepoolFinalizer : String := "oran-hwmgr-plugin/nodepool-finalizer"

/-- controllerutil.AddFinalizer: append the finalizer if not present. -/
def addFinalizer (f : String) (np : NodePool) : NodePool :=
  if f ∈ np.finalizers then np else { np with finalizers := np.finalizers ++ [f] }

/-- controllerutil.RemoveFinalizer: drop every occurrence of the
finalizer. -/
def removeFinalizer (f : String) (np : NodePool) : NodePool :=
  { np with finalizers := np.finalizers.filter (fun g => g ≠ f) }

/-- NodepoolAddFinalizer: per attempt, Get the nodepool, add the finalizer
to the fresh copy, write. -/
def nodepoolAddFinalizer (schedule : Nat → StoreAttempt) (steps : Nat) :
    Except GoErr NodePool :=
  retriedNodePoolMutation (addFinalizer NodepoolFinalizer)
    "failed to add finalizer to nodepool" schedule steps

/-- NodepoolRemoveFinalizer: per attempt, Get the nodepool, remove the
finalizer from the fresh copy, write. -/
def nodepoolRemoveFinalizer (schedule : Nat → StoreAttempt) (steps : Nat) :
    Except GoErr NodePool :=
  retriedNodePoolMutation (removeFinalizer NodepoolFinalizer)
    "failed to remove finalizer from nodepool" schedule steps

/-! ### metal3 Node operations (metal3 node helpers source) -/

/-- The Node literal metal3 Adaptor.CreateNode builds on the not-found
path: a single owner reference naming the NodePool with BlockOwnerDeletion
set, and the immutable spec fields. -/
def metal3CreatedNode (ns : String) (nodepool : NodePool)
    (cloudID nodename nodeId nodeNs groupname hwprofile : String) : Node :=
  { name := nodename,
    nspace := ns,
    ownerReferences := [{ apiVersion := nodepool.apiVersion,
                          kind := nodepool.kind,
                          name := nodepool.name,
                          uid := nodepool.uid,
                          blockOwnerDeletion := some true }],
    spec := { nodePool := cloudID,
              groupName := groupname,
              hwProfile := hwprofile,
              hwMgrId := nodepool.hwMgrId,
              hwMgrNodeNs := nodeNs,
              hwMgrNodeId := nodeId } }

/-- metal3 Adaptor.CreateNode: if the existence check succeeds the call is a
no-op returning nil; if it fails with anything other than not-found the
error is wrapped and returned without a create; on not-found the Node
literal is built and created.  `getResult` models the existence check,
`createResult` the Create call; the returned `some node` is the object
handed to Create. -/
def metal3CreateNode (ns : String) (getResult : Except GoErr Node)
    (createResult : Node → Option GoErr) (nodepool : NodePool)
    (cloudID nodename nodeId nodeNs groupname hwprofile : String) :
    Except GoErr (Option Node) :=
  match getResult with
  | .ok _ => .ok none
  | .error e =>
    if ¬ isNotFound e then
      .error (.wrap "failed to check if node exists" e)
    else
      let node := metal3CreatedNode ns nodepool cloudID nodename nodeId nodeNs groupname hwprofile
      match createResult node with
      | some e => .error (.wrap "failed to create Node" e)
      | none => .ok (some node)

/-- bmhNodeInfo: the BMC and interface data UpdateNodeStatus copies onto
the Node status. -/
structure BmhNodeInfo where
  bmc : BMC
  interfaces : List Interface
deriving DecidableEq, Repr

/-- The status mutation metal3 Adaptor.UpdateNodeStatus applies to the
freshly read Node: copy BMC and interfaces, set the Provisioned condition
to Completed/True (or InProgress/False when updating), record the hardware
profile.  The message spelling follows the source. -/
def updateNodeStatusMutate (info : BmhNodeInfo) (hwprofile : String)
    (updating : Bool) (now : Nat) (node : Node) : Node :=
  let reason := if updating then InProgress else Completed
  let message := if updating then "Hardware configuration in progess" else "Provisioned"
  let status := if updating then CondStatus.condFalse else CondStatus.condTrue
  { node with status :=
    { node.status with
        bmc := some info.bmc,
        interfaces := info.interfaces,
        conditions := setStatusCondition Provisioned reason status message now
          node.status.conditions,
        hwProfile := hwprofile } }

/-- One attempt of the node read-modify-write cycle. -/
structure NodeStoreAttempt where
  getResult : Except GoErr Node
  updateResult : Option GoErr
deriving Repr

/-- The retried fetch-mutate-write closure on a Node (retry.OnError with the
conflict predicate, as UpdateNodeStatus uses it). -/
def nodeMutationAttempt (mutate : Node → Node) (att : NodeStoreAttempt) :
    Except GoErr Node :=
  match att.getResult with
  | .error e => .error (.wrap "failed to fetch Node" e)
  | .ok fresh =>
    match att.updateResult with
    | some e => .error e
    | none => .ok (mutate fresh)

/-- retry.OnError with errors.IsConflict, on Node closures: same bounded
conflict-retry discipline as the nodepool wrapper. -/
def retryNodeOnConflict (fn : Nat → Except GoErr Node) :
    Nat → Nat → Except GoErr Node
  | 0, _ => .error .conflict
  | steps + 1, i =>
    match fn i with
    | .ok v => .ok v
    | .error e =>
      if e = .conflict ∧ steps ≠ 0 then
        retryNodeOnConflict fn steps (i + 1)
      else
        .error e

/-- metal3 Adaptor.UpdateNodeStatus: under the conflict-retry wrapper,
fetch the Node, apply the status mutation to the fresh copy, write it. -/
def updateNodeStatus (schedule : Nat → NodeStoreAttempt) (steps : Nat)
    (info : BmhNodeInfo) (hwprofile : String) (updating : Bool) (now : Nat) :
    Except GoErr Node :=
  retryNodeOnConflict
    (fun i => nodeMutationAttempt (updateNodeStatusMutate info hwprofile updating now)
      (schedule i)) steps 0

/-- metal3 Adaptor.SetNodeFailedStatus: set the given condition to
Failed/False on the in-memory Node and write its status once (no retry
wrapper in the source); a write failure is wrapped. -/
def setNodeFailedStatus (updateResult : Option GoErr) (node : Node)
    (conditionType message : String) (now : Nat) : Except GoErr Node :=
  let node' := { node with status :=
    { node.status with conditions :=
      (setStatusCondition conditionType Failed CondStatus.condFalse message now
        node.status.conditions) } }
  match updateResult with
  | some e => .error (.wrap "failed to set node failed status" e)
  | none => .ok node'

/-! ### DeriveNodePoolStatusFromNodes (nodepool utils source) -/

/-- DeriveNodePoolStatusFromNodes: scan the child nodes in list order,
fetching the latest observed state of each (`fetch`, modelling GetNode by
namespace and name).  The first fetch failure, missing Configured
condition, or non-ConfigApplied reason short-circuits the scan; otherwise
the pool is successfully configured. -/
def deriveNodePoolStatusFromNodes (fetch : String → String → Except GoErr Node) :
    List Node → CondStatus × String × String
  | [] => (CondStatus.condTrue, ConfigApplied, ConfigSuccess)
  | node :: rest =>
    match fetch node.nspace node.name with
    | .error e =>
      (CondStatus.condFalse, InProgress,
        "Node " ++ node.name ++ " could not be read: " ++ renderErr e)
    | .ok updatedNode =>
      match findStatusCondition updatedNode.status.conditions Configured with
      | none =>
        (CondStatus.condFalse, InProgress,
          "Node " ++ node.name ++ " missing Configured condition")
      | some cond =>
        if cond.reason ≠ ConfigApplied then
          (cond.status, cond.reason, "Node " ++ node.name ++ ": " ++ cond.message)
        else
          deriveNodePoolStatusFromNodes fetch rest

/-! ### Helper lemmas on the condition ledger -/

theorem findStatusCondition_cons (c : Condition) (rest : List Condition) (t : String) :
    findStatusCondition (c :: rest) t =
      if c.condType = t then some c else findStatusCondition rest t := by
  by_cases h : c.condType = t <;> simp [findStatusCondition, h]

theorem findStatusCondition_split {conds : List Condition} {t : String} {c : Condition}
    (h : findStatusCondition conds t = some c) :
    ∃ pre post, conds = pre ++ c :: post ∧ (∀ d ∈ pre, d.condType ≠ t) ∧ c.condType = t := by
  induction conds with
  | nil => simp [findStatusCondition] at h
  | cons d rest ih =>
    rw [findStatusCondition_cons] at h
    by_cases hd : d.condType = t
    · rw [if_pos hd] at h
      refine ⟨[], rest, ?_, ?_, ?_⟩
      · simpa using (Option.some.injEq d c ▸ h).symm ▸ rfl
      · simp
      · cases h; exact hd
    · rw [if_neg hd] at h
      obtain ⟨pre, post, heq, hpre, hct⟩ := ih h
      exact ⟨d :: pre, post, by simp [heq], by
        intro x hx
        rcases List.mem_cons.mp hx with hx | hx
        · exact hx ▸ hd
        · exact hpre x hx, hct⟩

theorem setStatusCondition_cons_ne {c : Condition} {t : String}
    (h : c.condType ≠ t) (r : String) (s : CondStatus) (m : String) (now : Nat)
    (rest : List Condition) :
    setStatusCondition t r s m now (c :: rest) = c :: setStatusCondition t r s m now rest := by
  simp [setStatusCondition, h]

theorem setStatusCondition_cons_replace {c : Condition} {t r : String} {s : CondStatus}
    (h : c.condType = t) (hd : c.status ≠ s ∨ c.reason ≠ r) (m : String) (now : Nat)
    (rest : List Condition) :
    setStatusCondition t r s m now (c :: rest) =
      { c with status := s, reason := r, message := m, lastTransitionTime := now } :: rest := by
  rw [setStatusCondition, if_pos h, if_pos hd]

theorem setStatusCondition_cons_msg {c : Condition} {t r : String} {s : CondStatus}
    (h : c.condType = t) (hs : c.status = s) (hr : c.reason = r) (m : String) (now : Nat)
    (rest : List Condition) :
    setStatusCondition t r s m now (c :: rest) = { c with message := m } :: rest := by
  rw [setStatusCondition, if_pos h, if_neg (by simp [hs, hr])]

theorem setStatusCondition_append {pre : List Condition} {t : String}
    (hpre : ∀ d ∈ pre, d.condType ≠ t) (r : String) (s : CondStatus) (m : String)
    (now : Nat) (l : List Condition) :
    setStatusCondition t r s m now (pre ++ l) = pre ++ setStatusCondition t r s m now l := by
  induction pre with
  | nil => simp
  | cons d rest ih =>
    have hd : d.condType ≠ t := hpre d (by simp)
    have hrest : ∀ x ∈ rest, x.condType ≠ t := fun x hx => hpre x (by simp [hx])
    simp only [List.cons_append, setStatusCondition_cons_ne hd, ih hrest]

theorem findStatusCondition_append {pre : List Condition} {t : String}
    (hpre : ∀ d ∈ pre, d.condType ≠ t) (l : List Condition) :
    findStatusCondition (pre ++ l) t = findStatusCondition l t := by
  induction pre with
  | nil => simp
  | cons d rest ih =>
    have hd : d.condType ≠ t := hpre d (by simp)
    have hrest : ∀ x ∈ rest, x.condType ≠ t := fun x hx => hpre x (by simp [hx])
    rw [List.cons_append, findStatusCondition_cons, if_neg hd, ih hrest]

theorem setStatusCondition_absent {conds : List Condition} {t : String}
    (h : findStatusCondition conds t = none) (r : String) (s : CondStatus) (m : String)
    (now : Nat) :
    setStatusCondition t r s m now conds =
      conds ++ [{ condType := t, status := s, reason := r, message := m,
                  lastTransitionTime := now }] := by
  induction conds with
  | nil => rfl
  | cons c rest ih =>
    rw [findStatusCondition_cons] at h
    by_cases hc : c.condType = t
    · rw [if_pos hc] at h; cases h
    · rw [if_neg hc] at h
      rw [setStatusCondition_cons_ne hc, ih h, List.cons_append]

/-- After any setStatusCondition call, the touched list holds an entry of
the set Type whose Status and Reason match the set values; re-applying the
same call therefore takes the message-only branch and leaves every
LastTransitionTime unchanged. -/
theorem setStatusCondition_ltt_stable (t r : String) (s : CondStatus) (m : String)
    (now1 now2 : Nat) (conds : List Condition) :
    (setStatusCondition t r s m now2 (setStatusCondition t r s m now1 conds)).map
        Condition.lastTransitionTime =
      (setStatusCondition t r s m now1 conds).map Condition.lastTransitionTime := by
  induction conds with
  | nil =>
    simp [setStatusCondition]
  | cons c rest ih =>
    by_cases hc : c.condType = t
    · have step1 : ∃ h1 : Condition, setStatusCondition t r s m now1 (c :: rest) = h1 :: rest ∧
          h1.condType = t ∧ h1.status = s ∧ h1.reason = r := by
        by_cases hd : c.status ≠ s ∨ c.reason ≠ r
        · exact ⟨_, setStatusCondition_cons_replace hc hd m now1 rest, hc, rfl, rfl⟩
        · push_neg at hd
          exact ⟨_, setStatusCondition_cons_msg hc hd.1 hd.2 m now1 rest, hc, hd.1, hd.2⟩
      obtain ⟨h1, he, hct, hst, hrs⟩ := step1
      rw [he, setStatusCondition_cons_msg hct hst hrs]
      simp
    · rw [setStatusCondition_cons_ne hc, setStatusCondition_cons_ne hc]
      simp only [List.map_cons, ih]

/-! ### Helper lemmas on the retry loop -/

theorem retryOnConflictOrRetriable_succeeds (fn : Nat → Except GoErr NodePool)
    (v : NodePool) :
    ∀ steps i k, k < steps → (∀ j, j < k → fn (i + j) = .error .conflict) →
      fn (i + k) = .ok v → retryOnConflictOrRetriable fn steps i = .ok v := by
  intro steps
  induction steps with
  | zero => intro i k hk; omega
  | succ s ih =>
    intro i k hk hfail hok
    cases k with
    | zero =>
      have hok' : fn i = .ok v := by simpa using hok
      rw [retryOnConflictOrRetriable, hok']
    | succ k' =>
      have h0 : fn i = .error .conflict := by simpa using hfail 0 (by omega)
      have hs : s ≠ 0 := by omega
      rw [retryOnConflictOrRetriable, h0]
      show (if GoErr.conflict = GoErr.conflict ∧ s ≠ 0 then
        retryOnConflictOrRetriable fn s (i + 1) else Except.error GoErr.conflict) = .ok v
      rw [if_pos ⟨rfl, hs⟩]
      refine ih (i + 1) k' (by omega) (fun j hj => ?_) ?_
      · have harith : i + 1 + j = i + (j + 1) := by omega
        rw [harith]; exact hfail (j + 1) (by omega)
      · have harith : i + 1 + k' = i + (k' + 1) := by omega
        rw [harith]; exact hok

theorem retryOnConflictOrRetriable_exhausts (fn : Nat → Except GoErr NodePool) :
    ∀ steps i, 0 < steps → (∀ j, j < steps → fn (i + j) = .error .conflict) →
      retryOnConflictOrRetriable fn steps i = .error .conflict := by
  intro steps
  induction steps with
  | zero => intro i h; omega
  | succ s ih =>
    intro i _ hfail
    have h0 : fn i = .error .conflict := by simpa using hfail 0 (by omega)
    rw [retryOnConflictOrRetriable, h0]
    show (if GoErr.conflict = GoErr.conflict ∧ s ≠ 0 then
      retryOnConflictOrRetriable fn s (i + 1) else Except.error GoErr.conflict) =
        .error GoErr.conflict
    by_cases hs : s = 0
    · rw [if_neg (by simp [hs])]
    · rw [if_pos ⟨rfl, hs⟩]
      refine ih (i + 1) (by omega) (fun j hj => ?_)
      have harith : i + 1 + j = i + (j + 1) := by omega
      rw [harith]; exact hfail (j + 1) (by omega)

/-! ### Claim theorems -/

/-- C1: in both the metal3 and the loopback classifier, an empty Conditions
list yields Create; a Provisioned condition with Status=True yields
SpecChanged when metadata.Generation differs from the plugin-observed
generation and Noop when they coincide, regardless of any other conditions
in the list — the generation-drift check runs strictly before the Noop
short-circuit. -/
theorem claim_c1_classifier (np : NodePool) :
    (np.status.conditions = [] →
      metal3DetermineAction np = .create ∧ loopbackDetermineAction np = .create) ∧
    (∀ c, findStatusCondition np.status.conditions Provisioned = some c →
      c.status = .condTrue →
      ((np.generation ≠ np.status.hwMgrPlugin.observedGeneration →
          metal3DetermineAction np = .specChanged ∧
          loopbackDetermineAction np = .specChanged) ∧
       (np.generation = np.status.hwMgrPlugin.observedGeneration →
          metal3DetermineAction np = .noop ∧ loopbackDetermineAction np = .noop))) := by
  constructor
  · intro h
    constructor <;> simp [metal3DetermineAction, loopbackDetermineAction, h]
  · intro c hfind hstat
    have hne : np.status.conditions ≠ [] := by
      intro h; rw [h] at hfind; simp [findStatusCondition] at hfind
    have hlen : ¬ np.status.conditions.length = 0 := by
      simpa [List.length_eq_zero] using hne
    constructor <;> intro hgen <;> constructor <;>
      simp [metal3DetermineAction, loopbackDetermineAction, hlen, hfind, hstat, hgen]

/-- C1 witness: the classifier at three concrete NodePools — empty
conditions, Provisioned=True with matching generation, Provisioned=True
with drifted generation. -/
theorem claim_c1_classifier_witness :
    metal3DetermineAction { name := "np0" } = .create ∧
    loopbackDetermineAction
      { name := "np1", generation := 2,
        status := { conditions := [{ condType := "Provisioned", status := .condTrue,
                                     reason := "Completed", message := "Provisioned",
                                     lastTransitionTime := 1 }],
                    hwMgrPlugin := { observedGeneration := 2 } } } = .noop ∧
    metal3DetermineAction
      { name := "np2", generation := 3,
        status := { conditions := [{ condType := "Provisioned", status := .condTrue,
                                     reason := "Completed", message := "Provisioned",
                                     lastTransitionTime := 1 }],
                    hwMgrPlugin := { observedGeneration := 2 } } } = .specChanged := by
  refine ⟨((claim_c1_classifier _).1 rfl).1, ?_, ?_⟩
  · exact (((claim_c1_classifier _).2
      { condType := "Provisioned", status := .condTrue, reason := "Completed",
        message := "Provisioned", lastTransitionTime := 1 }
      (by decide) rfl).2 rfl).2
  · exact (((claim_c1_classifier _).2
      { condType := "Provisioned", status := .condTrue, reason := "Completed",
        message := "Provisioned", lastTransitionTime := 1 }
      (by decide) rfl).1 (by decide)).1

/-- C9: a non-empty Conditions list with no Provisioned condition is
classified Noop by both adaptors, and HandleNodePool returns the
do-not-requeue result with nil error without invoking any per-state
handler (the conclusion holds for every choice of handlers). -/
theorem claim_c9_no_provisioned (np : NodePool)
    (h1 : np.status.conditions ≠ [])
    (h2 : findStatusCondition np.status.conditions Provisioned = none)
    (hC hP hS gC gP gS : NodePool → HandlerResult) :
    metal3DetermineAction np = .noop ∧ loopbackDetermineAction np = .noop ∧
    metal3HandleNodePool hC hP hS np = (doNotRequeue, none) ∧
    loopbackHandleNodePool gC gP gS np = (doNotRequeue, none) := by
  have hlen : ¬ np.status.conditions.length = 0 := by
    simpa [List.length_eq_zero] using h1
  refine ⟨?_, ?_, ?_, ?_⟩ <;>
    simp [metal3DetermineAction, loopbackDetermineAction, metal3HandleNodePool,
      loopbackHandleNodePool, hlen, h2]

/-- C9 witness: a pool whose only condition is Configured; both adaptors
classify it Noop and HandleNodePool returns do-not-requeue with nil
error even for handlers that would report an invocation. -/
theorem claim_c9_no_provisioned_witness :
    metal3HandleNodePool
      (fun _ => ({ requeue := true }, some (.msg "create invoked")))
      (fun _ => ({ requeue := true }, some (.msg "processing invoked")))
      (fun _ => ({ requeue := true }, some (.msg "specChanged invoked")))
      { name := "np3",
        status := { conditions := [{ condType := "Configured", status := .condFalse,
                                     reason := "InProgress", message := "working",
                                     lastTransitionTime := 1 }] } } = (doNotRequeue, none) := by
  exact (claim_c9_no_provisioned _ (by decide) (by decide)
    (fun _ => ({ requeue := true }, some (.msg "create invoked")))
    (fun _ => ({ requeue := true }, some (.msg "processing invoked")))
    (fun _ => ({ requeue := true }, some (.msg "specChanged invoked")))
    (fun _ => ({ requeue := true }, some (.msg "create invoked")))
    (fun _ => ({ requeue := true }, some (.msg "processing invoked")))
    (fun _ => ({ requeue := true }, some (.msg "specChanged invoked")))).2.2.1

/-- C2 counterexample: a NodePool whose Provisioned condition is
False with Reason=Failed is classified Processing by the loopback
classifier, and loopback HandleNodePool invokes the processing handler —
refuting the claim that in every adaptor no handler is invoked for such a
pool. -/
theorem claim_c2_counterexample :
    loopbackDetermineAction
      { name := "failed-pool",
        status := { conditions := [{ condType := "Provisioned", status := .condFalse,
                                     reason := "Failed", message := "allocation failed",
                                     lastTransitionTime := 1 }] } } = .processing ∧
    loopbackHandleNodePool
      (fun _ => ({ requeue := false }, none))
      (fun _ => ({ requeue := true }, some (.msg "processing invoked")))
      (fun _ => ({ requeue := false }, none))
      { name := "failed-pool",
        status := { conditions := [{ condType := "Provisioned", status := .condFalse,
                                     reason := "Failed", message := "allocation failed",
                                     lastTransitionTime := 1 }] } } =
      ({ requeue := true }, some (.msg "processing invoked")) := by
  exact ⟨rfl, rfl⟩

/-- C2 amended: for a NodePool whose Provisioned condition has
Reason=Failed and Status not True, the metal3 adaptor classifies it Noop
and HandleNodePool invokes no per-state handler (for every choice of
handlers), so the failed allocation is not retried there; the loopback
classifier, however, lacks the Failed branch: it classifies such a pool
Processing and HandleNodePool invokes the processing handler. -/
theorem claim_c2_failed_state (np : NodePool) (c : Condition)
    (hfind : findStatusCondition np.status.conditions Provisioned = some c)
    (hs : c.status ≠ .condTrue) (hr : c.reason = Failed)
    (hC hP hS : NodePool → HandlerResult) :
    metal3DetermineAction np = .noop ∧
    metal3HandleNodePool hC hP hS np = (doNotRequeue, none) ∧
    loopbackDetermineAction np = .processing ∧
    loopbackHandleNodePool hC hP hS np = hP np := by
  have hne : np.status.conditions ≠ [] := by
    intro h; rw [h] at hfind; simp [findStatusCondition] at hfind
  have hlen : ¬ np.status.conditions.length = 0 := by
    simpa [List.length_eq_zero] using hne
  refine ⟨?_, ?_, ?_, ?_⟩ <;>
    simp [metal3DetermineAction, loopbackDetermineAction, metal3HandleNodePool,
      loopbackHandleNodePool, hlen, hfind, hs, hr]

/-- C2 witness: the amended behaviour at a concrete failed pool: metal3
performs no action while loopback hands the pool to the processing
handler. -/
theorem claim_c2_failed_state_witness :
    metal3HandleNodePool
      (fun _ => ({ requeue := true }, some (.msg "create invoked")))
      (fun _ => ({ requeue := true }, some (.msg "processing invoked")))
      (fun _ => ({ requeue := true }, some (.msg "specChanged invoked")))
      { name := "failed-pool2",
        status := { conditions := [{ condType := "Provisioned", status := .condFalse,
                                     reason := "Failed", message := "allocation failed",
                                     lastTransitionTime := 1 }] } } = (doNotRequeue, none) ∧
    loopbackHandleNodePool
      (fun _ => ({ requeue := true }, some (.msg "create invoked")))
      (fun _ => ({ requeue := true }, some (.msg "processing invoked")))
      (fun _ => ({ requeue := true }, some (.msg "specChanged invoked")))
      { name := "failed-pool2",
        status := { conditions := [{ condType := "Provisioned", status := .condFalse,
                                     reason := "Failed", message := "allocation failed",
                                     lastTransitionTime := 1 }] } } =
      ({ requeue := true }, some (.msg "processing invoked")) := by
  have h := claim_c2_failed_state
    { name := "failed-pool2",
      status := { conditions := [{ condType := "Provisioned", status := .condFalse,
                                   reason := "Failed", message := "allocation failed",
                                   lastTransitionTime := 1 }] } }
    { condType := "Provisioned", status := .condFalse, reason := "Failed",
      message := "allocation failed", lastTransitionTime := 1 }
    (by decide) (by decide) rfl
    (fun _ => ({ requeue := true }, some (.msg "create invoked")))
    (fun _ => ({ requeue := true }, some (.msg "processing invoked")))
    (fun _ => ({ requeue := true }, some (.msg "specChanged invoked")))
  exact ⟨h.2.1, h.2.2.2⟩

/-- Fixture for C3: a Provisioned condition in the Completed state. -/
def c3CompletedCond : Condition :=
  { condType := "Provisioned", status := .condTrue, reason := "Completed",
    message := "Provisioned", lastTransitionTime := 5 }

/-- Fixture for C3: a Node whose Provisioned condition is True/Completed. -/
def c3CompletedNode : Node :=
  { name := "node-a", status := { conditions := [c3CompletedCond] } }

/-- Fixture for C3: the BMC/interface payload handed to UpdateNodeStatus. -/
def c3Info : BmhNodeInfo :=
  { bmc := { address := "addr", credentialsName := "creds" }, interfaces := [] }

/-- Fixture for C3: a single-attempt schedule whose fresh read returns the
Completed node and whose write succeeds. -/
def c3Schedule : Nat → NodeStoreAttempt :=
  fun _ => { getResult := .ok c3CompletedNode, updateResult := none }

/-- C3 counterexample: a Node whose Provisioned condition is
True/Completed, passed through UpdateNodeStatus with updating=true (a
single successful read-modify-write attempt), comes back with Provisioned
set to False/InProgress — the condition regresses after Completed. -/
theorem claim_c3_counterexample :
    (updateNodeStatus c3Schedule 1 c3Info "profile-a" true 7).map
      (fun n => findStatusCondition n.status.conditions Provisioned) =
    .ok (some { condType := "Provisioned", status := .condFalse, reason := "InProgress",
                message := "Hardware configuration in progess",
                lastTransitionTime := 7 }) := by
  rfl

/-- C3 amended: the Provisioned condition of a Node is monotone only along
the completion path: once True/Completed, UpdateNodeStatus with
updating=false leaves it True/Completed (message-only refresh, timestamp
untouched); but UpdateNodeStatus with updating=true rewrites it to
False/InProgress, and SetNodeFailedStatus to False/Failed, regardless of
the prior Completed state. -/
theorem claim_c3_provisioned_monotonicity (node : Node) (c : Condition)
    (hfind : findStatusCondition node.status.conditions Provisioned = some c)
    (hs : c.status = .condTrue) (hr : c.reason = Completed)
    (info : BmhNodeInfo) (hwprofile : String) (now : Nat) (failMsg : String) :
    findStatusCondition
        (updateNodeStatusMutate info hwprofile false now node).status.conditions
        Provisioned = some { c with message := "Provisioned" } ∧
    findStatusCondition
        (updateNodeStatusMutate info hwprofile true now node).status.conditions
        Provisioned =
      some { c with status := .condFalse, reason := InProgress,
                    message := "Hardware configuration in progess",
                    lastTransitionTime := now } ∧
    (setNodeFailedStatus none node Provisioned failMsg now).map
        (fun n => findStatusCondition n.status.conditions Provisioned) =
      .ok (some { c with status := .condFalse, reason := Failed,
                         message := failMsg, lastTransitionTime := now }) := by
  obtain ⟨pre, post, heq, hpre, hct⟩ := findStatusCondition_split hfind
  have find_head : ∀ d : Condition, d.condType = Provisioned →
      findStatusCondition (pre ++ d :: post) Provisioned = some d := by
    intro d hd
    rw [findStatusCondition_append hpre, findStatusCondition_cons, if_pos hd]
  refine ⟨?_, ?_, ?_⟩
  · show findStatusCondition
      (setStatusCondition Provisioned Completed CondStatus.condTrue "Provisioned" now
        node.status.conditions) Provisioned = some { c with message := "Provisioned" }
    rw [heq, setStatusCondition_append hpre, setStatusCondition_cons_msg hct hs hr]
    exact find_head _ hct
  · show findStatusCondition
      (setStatusCondition Provisioned InProgress CondStatus.condFalse
        "Hardware configuration in progess" now node.status.conditions) Provisioned = _
    rw [heq, setStatusCondition_append hpre,
      setStatusCondition_cons_replace hct (Or.inl (by simp [hs]))]
    exact find_head _ hct
  · show Except.ok (findStatusCondition
      (setStatusCondition Provisioned Failed CondStatus.condFalse failMsg now
        node.status.conditions) Provisioned) = _
    rw [heq, setStatusCondition_append hpre,
      setStatusCondition_cons_replace hct (Or.inl (by simp [hs]))]
    exact congrArg Except.ok (find_head _ hct)

/-- C3 witness: the amended behaviour at the concrete Completed node — the
updating=false path preserves True/Completed with the old timestamp, the
updating=true path rewrites to False/InProgress. -/
theorem claim_c3_provisioned_monotonicity_witness :
    findStatusCondition
        (updateNodeStatusMutate c3Info "profile-a" false 9 c3CompletedNode).status.conditions
        Provisioned =
      some { condType := "Provisioned", status := .condTrue, reason := "Completed",
             message := "Provisioned", lastTransitionTime := 5 } ∧
    findStatusCondition
        (updateNodeStatusMutate c3Info "profile-a" true 9 c3CompletedNode).status.conditions
        Provisioned =
      some { condType := "Provisioned", status := .condFalse, reason := "InProgress",
             message := "Hardware configuration in progess", lastTransitionTime := 9 } := by
  have h := claim_c3_provisioned_monotonicity c3CompletedNode c3CompletedCond
    (by decide) rfl rfl c3Info "profile-a" 9 "unused"
  exact ⟨h.1, h.2.1⟩

/-! ### Lemmas on the child-node status scan -/

/-- A child node whose fetched state reports a Configured condition with
reason ConfigApplied. -/
def nodeConfigOk (fetch : String → String → Except GoErr Node) (m : Node) : Prop :=
  ∃ u c, fetch m.nspace m.name = .ok u ∧
    findStatusCondition u.status.conditions Configured = some c ∧
    c.reason = ConfigApplied

theorem derive_cons_ok {fetch : String → String → Except GoErr Node} {m : Node}
    (hm : nodeConfigOk fetch m) (rest : List Node) :
    deriveNodePoolStatusFromNodes fetch (m :: rest) =
      deriveNodePoolStatusFromNodes fetch rest := by
  obtain ⟨u, c, hu, hc, hr⟩ := hm
  simp only [deriveNodePoolStatusFromNodes, hu, hc]
  rw [if_neg (by simp [hr])]

theorem derive_append_ok {fetch : String → String → Except GoErr Node}
    {pre : List Node} (hpre : ∀ m ∈ pre, nodeConfigOk fetch m) (l : List Node) :
    deriveNodePoolStatusFromNodes fetch (pre ++ l) =
      deriveNodePoolStatusFromNodes fetch l := by
  induction pre with
  | nil => simp
  | cons m rest ih =>
    have hm : nodeConfigOk fetch m := hpre m (by simp)
    have hrest : ∀ x ∈ rest, nodeConfigOk fetch x := fun x hx => hpre x (by simp [hx])
    rw [List.cons_append, derive_cons_ok hm, ih hrest]

theorem derive_success_all_fetch_ok {fetch : String → String → Except GoErr Node} :
    ∀ nodes : List Node,
      deriveNodePoolStatusFromNodes fetch nodes =
        (CondStatus.condTrue, ConfigApplied, ConfigSuccess) →
      ∀ n ∈ nodes, ∃ u, fetch n.nspace n.name = .ok u := by
  intro nodes
  induction nodes with
  | nil => simp
  | cons m rest ih =>
    intro h n hn
    cases hf : fetch m.nspace m.name with
    | error e =>
      rw [deriveNodePoolStatusFromNodes, hf] at h
      simp [Prod.ext_iff] at h
    | ok u =>
      cases hc : findStatusCondition u.status.conditions Configured with
      | none =>
        rw [deriveNodePoolStatusFromNodes, hf] at h
        simp only [hc] at h
        simp [Prod.ext_iff] at h
      | some c =>
        by_cases hr : c.reason = ConfigApplied
        · have hrest : deriveNodePoolStatusFromNodes fetch rest =
              (CondStatus.condTrue, ConfigApplied, ConfigSuccess) := by
            rw [deriveNodePoolStatusFromNodes, hf] at h
            simp only [hc] at h
            rwa [if_neg (by simp [hr])] at h
          rcases List.mem_cons.mp hn with rfl | hn'
          · exact ⟨u, hf⟩
          · exact ih hrest n hn'
        · rw [deriveNodePoolStatusFromNodes, hf] at h
          simp only [hc] at h
          rw [if_pos hr] at h
          simp only [Prod.mk.injEq] at h
          exact absurd h.2.1 hr

/-- C4: the child-node scan returns success for the empty list; the first
node whose fetch fails, or whose fetched state lacks a Configured
condition, short-circuits the scan as False/InProgress with a message
naming that node; the first node whose Configured reason is not
ConfigApplied short-circuits with that condition status and reason; a
list of uniformly ConfigApplied nodes yields success; and success is never
returned when some node could not be read. -/
theorem claim_c4_derive_status (fetch : String → String → Except GoErr Node) :
    (deriveNodePoolStatusFromNodes fetch [] =
      (CondStatus.condTrue, ConfigApplied, ConfigSuccess)) ∧
    (∀ pre n post e, (∀ m ∈ pre, nodeConfigOk fetch m) →
      fetch n.nspace n.name = .error e →
      deriveNodePoolStatusFromNodes fetch (pre ++ n :: post) =
        (CondStatus.condFalse, InProgress,
          "Node " ++ n.name ++ " could not be read: " ++ renderErr e)) ∧
    (∀ pre n post u, (∀ m ∈ pre, nodeConfigOk fetch m) →
      fetch n.nspace n.name = .ok u →
      findStatusCondition u.status.conditions Configured = none →
      deriveNodePoolStatusFromNodes fetch (pre ++ n :: post) =
        (CondStatus.condFalse, InProgress,
          "Node " ++ n.name ++ " missing Configured condition")) ∧
    (∀ pre n post u c, (∀ m ∈ pre, nodeConfigOk fetch m) →
      fetch n.nspace n.name = .ok u →
      findStatusCondition u.status.conditions Configured = some c →
      c.reason ≠ ConfigApplied →
      deriveNodePoolStatusFromNodes fetch (pre ++ n :: post) =
        (c.status, c.reason, "Node " ++ n.name ++ ": " ++ c.message)) ∧
    (∀ nodes, (∀ m ∈ nodes, nodeConfigOk fetch m) →
      deriveNodePoolStatusFromNodes fetch nodes =
        (CondStatus.condTrue, ConfigApplied, ConfigSuccess)) ∧
    (∀ nodes n e, n ∈ nodes → fetch n.nspace n.name = .error e →
      deriveNodePoolStatusFromNodes fetch nodes ≠
        (CondStatus.condTrue, ConfigApplied, ConfigSuccess)) := by
  refine ⟨rfl, ?_, ?_, ?_, ?_, ?_⟩
  · intro pre n post e hpre hf
    rw [derive_append_ok hpre]
    simp [deriveNodePoolStatusFromNodes, hf]
  · intro pre n post u hpre hf hc
    rw [derive_append_ok hpre]
    rw [deriveNodePoolStatusFromNodes, hf]
    simp only [hc]
  · intro pre n post u c hpre hf hc hr
    rw [derive_append_ok hpre]
    rw [deriveNodePoolStatusFromNodes, hf]
    simp only [hc]
    rw [if_pos hr]
  · intro nodes hall
    induction nodes with
    | nil => rfl
    | cons m rest ih =>
      have hm : nodeConfigOk fetch m := hall m (by simp)
      have hrest : ∀ x ∈ rest, nodeConfigOk fetch x := fun x hx => hall x (by simp [hx])
      rw [derive_cons_ok hm, ih hrest]
  · intro nodes n e hn hf hsucc
    obtain ⟨u, hu⟩ := derive_success_all_fetch_ok nodes hsucc n hn
    rw [hf] at hu
    simp at hu

/-- Fixture for C4: the Configured/ConfigApplied condition of node1. -/
def c4GoodCond : Condition :=
  { condType := "Configured", status := .condTrue, reason := "ConfigApplied",
    message := "ok", lastTransitionTime := 1 }

/-- Fixture for C4: the Configured/InProgress condition of node2. -/
def c4ProgCond : Condition :=
  { condType := "Configured", status := .condFalse, reason := "InProgress",
    message := "applying", lastTransitionTime := 2 }

/-- Fixture for C4: a successfully configured node. -/
def c4Node1 : Node := { name := "node1", nspace := "ns", status := { conditions := [c4GoodCond] } }

/-- Fixture for C4: a node still configuring. -/
def c4Node2 : Node := { name := "node2", nspace := "ns", status := { conditions := [c4ProgCond] } }

/-- Fixture for C4: an unreachable node. -/
def c4Node3 : Node := { name := "node3", nspace := "ns" }

/-- Fixture for C4: the fetch behaviour — node1 and node2 readable, node3
unreachable. -/
def c4Fetch : String → String → Except GoErr Node :=
  fun _ name =>
    if name = "node1" then .ok c4Node1
    else if name = "node2" then .ok c4Node2
    else .error (.msg "unreachable")

/-- C4 witness: the spec scenario — node 2 of 3 reports
Configured=False/InProgress and node 3 is unreachable; the scan returns
node 2's condition, not an error and not success. -/
theorem claim_c4_derive_status_witness :
    deriveNodePoolStatusFromNodes c4Fetch [c4Node1, c4Node2, c4Node3] =
      (CondStatus.condFalse, "InProgress", "Node node2: applying") := by
  have h := (claim_c4_derive_status c4Fetch).2.2.2.1 [c4Node1] c4Node2 [c4Node3]
    c4Node2 c4ProgCond
    (by
      intro m hm
      have hme : m = c4Node1 := by simpa using hm
      subst hme
      exact ⟨c4Node1, c4GoodCond, rfl, by decide, by decide⟩)
    rfl (by decide) (by decide)
  exact h.trans (by decide)

/-! ### Inventory query surface: status codes and filtering -/

theorem foldl_filtered_append {α β : Type} (p : α → Bool) (f : α → β) :
    ∀ (l : List α) (acc : List β),
      l.foldl (fun r b => if p b then r ++ [f b] else r) acc =
        acc ++ (l.filter p).map f := by
  intro l
  induction l with
  | nil => simp
  | cons x xs ih =>
    intro acc
    by_cases hp : p x <;>
      simp [List.foldl_cons, hp, ih, List.filter_cons]

/-- C5: every inventory query returns an HTTP status in {200, 500, 503};
the status is 200 exactly when the error is nil; a failed list of the
backing store yields 500 in the metal3 adaptor, and a failed read of the
current resources yields 503 in the loopback adaptor. -/
theorem claim_c5_http_status :
    (∀ lr : Except GoErr (List BareMetalHost),
      ((metal3GetResourcePools lr).httpStatus = 200 ∨
       (metal3GetResourcePools lr).httpStatus = 500 ∨
       (metal3GetResourcePools lr).httpStatus = 503) ∧
      ((metal3GetResourcePools lr).httpStatus = 200 ↔
       (metal3GetResourcePools lr).err = none)) ∧
    (∀ e : GoErr, (metal3GetResourcePools (.error e)).httpStatus = 500) ∧
    (∀ (nlr : Except GoErr (List Node)) (lr : Except GoErr (List BareMetalHost)),
      ((metal3GetResources nlr lr).httpStatus = 200 ∨
       (metal3GetResources nlr lr).httpStatus = 500 ∨
       (metal3GetResources nlr lr).httpStatus = 503) ∧
      ((metal3GetResources nlr lr).httpStatus = 200 ↔
       (metal3GetResources nlr lr).err = none)) ∧
    (∀ (nlr : Except GoErr (List Node)) (e : GoErr),
      (metal3GetResources nlr (.error e)).httpStatus = 500) ∧
    (∀ (e : GoErr) (lr : Except GoErr (List BareMetalHost)),
      (metal3GetResources (.error e) lr).httpStatus = 500) ∧
    (∀ rr : Except GoErr LoopbackResources,
      ((loopbackGetResourcePools rr).httpStatus = 200 ∨
       (loopbackGetResourcePools rr).httpStatus = 500 ∨
       (loopbackGetResourcePools rr).httpStatus = 503) ∧
      ((loopbackGetResourcePools rr).httpStatus = 200 ↔
       (loopbackGetResourcePools rr).err = none)) ∧
    (∀ e : GoErr, (loopbackGetResourcePools (.error e)).httpStatus = 503) ∧
    (∀ rr : Except GoErr LoopbackResources,
      ((loopbackGetResources rr).httpStatus = 200 ∨
       (loopbackGetResources rr).httpStatus = 500 ∨
       (loopbackGetResources rr).httpStatus = 503) ∧
      ((loopbackGetResources rr).httpStatus = 200 ↔
       (loopbackGetResources rr).err = none)) ∧
    (∀ e : GoErr, (loopbackGetResources (.error e)).httpStatus = 503) := by
  refine ⟨?_, ?_, ?_, ?_, ?_, ?_, ?_, ?_, ?_⟩
  · intro lr; cases lr <;> simp [metal3GetResourcePools]
  · intro e; simp [metal3GetResourcePools]
  · intro nlr lr; cases nlr <;> cases lr <;>
      simp [metal3GetResources, getBMHToNodeMap]
  · intro nlr e; cases nlr <;> simp [metal3GetResources, getBMHToNodeMap]
  · intro e lr; simp [metal3GetResources, getBMHToNodeMap]
  · intro rr; cases rr <;> simp [loopbackGetResourcePools]
  · intro e; simp [loopbackGetResourcePools]
  · intro rr; cases rr <;> simp [loopbackGetResources]
  · intro e; simp [loopbackGetResources]

/-- C8: a BareMetalHost is eligible for inventory exactly when it carries
non-empty resource-pool-id and site-id labels and its provisioning state
is one of available/provisioning/provisioned/preparing; and both
GetResourcePools and GetResources project exactly the eligible hosts of a
successful list, in order. -/
theorem claim_c8_eligibility :
    (∀ bmh : BareMetalHost, includeInInventory bmh = true ↔
      (bmhLabel bmh LabelResourcePoolID ≠ "" ∧ bmhLabel bmh LabelSiteID ≠ "" ∧
       (bmh.status.provisioningState = .available ∨
        bmh.status.provisioningState = .provisioning ∨
        bmh.status.provisioningState = .provisioned ∨
        bmh.status.provisioningState = .preparing))) ∧
    (∀ hosts : List BareMetalHost,
      (metal3GetResourcePools (.ok hosts)).items =
        (hosts.filter (fun b => includeInInventory b)).map bmhPoolInfo) ∧
    (∀ (nodelist : List Node) (hosts : List BareMetalHost),
      (metal3GetResources (.ok nodelist) (.ok hosts)).items =
        (hosts.filter (fun b => includeInInventory b)).map
          (fun bmh => getResourceInfo bmh (getNodeForBMH (bmhNodeMapOf nodelist) bmh))) := by
  refine ⟨?_, ?_, ?_⟩
  · intro bmh
    unfold includeInInventory
    by_cases h1 : bmh.labels.isNone ∨ bmhLabel bmh LabelResourcePoolID = "" ∨
        bmhLabel bmh LabelSiteID = ""
    · rw [if_pos h1]
      have hpool : bmhLabel bmh LabelResourcePoolID = "" ∨ bmhLabel bmh LabelSiteID = "" := by
        rcases h1 with h | h | h
        · left
          cases hl : bmh.labels with
          | none => simp [bmhLabel, hl]
          | some m => rw [hl] at h; simp at h
        · left; exact h
        · right; exact h
      constructor
      · intro hfalse; cases hfalse
      · rintro ⟨ha, hb, _⟩
        rcases hpool with h | h
        · exact absurd h ha
        · exact absurd h hb
    · rw [if_neg h1]
      push_neg at h1
      refine ⟨fun hmatch => ⟨h1.2.1, h1.2.2, ?_⟩, fun h => ?_⟩
      · cases hst : bmh.status.provisioningState <;> rw [hst] at hmatch <;>
          simp_all
      · rcases h.2.2 with hst | hst | hst | hst <;> rw [hst]
  · intro hosts
    show hosts.foldl (fun resp bmh =>
        if includeInInventory bmh then resp ++ [bmhPoolInfo bmh] else resp) [] = _
    rw [foldl_filtered_append (fun b => includeInInventory b) bmhPoolInfo hosts []]
    simp
  · intro nodelist hosts
    show hosts.foldl (fun resp bmh =>
        if includeInInventory bmh then
          resp ++ [getResourceInfo bmh (getNodeForBMH (bmhNodeMapOf nodelist) bmh)]
        else resp) [] = _
    rw [foldl_filtered_append (fun b => includeInInventory b)
      (fun bmh => getResourceInfo bmh (getNodeForBMH (bmhNodeMapOf nodelist) bmh)) hosts []]
    simp

/-- C6: SetStatusCondition appends a fresh-timestamped entry when the Type
is absent; replaces Status/Reason/Message in place (other entries and
their order untouched) with a refreshed timestamp when Status or Reason
differ; updates only Message, timestamp untouched, when Status and Reason
are unchanged; hence a second application with identical arguments leaves
every LastTransitionTime unchanged. -/
theorem claim_c6_set_condition :
    (∀ (L : List Condition) (t r : String) (s : CondStatus) (m : String) (now : Nat),
      findStatusCondition L t = none →
      setStatusCondition t r s m now L =
        L ++ [{ condType := t, status := s, reason := r, message := m,
                lastTransitionTime := now }]) ∧
    (∀ (pre post : List Condition) (c : Condition) (t r : String) (s : CondStatus)
       (m : String) (now : Nat),
      (∀ d ∈ pre, d.condType ≠ t) → c.condType = t → (c.status ≠ s ∨ c.reason ≠ r) →
      setStatusCondition t r s m now (pre ++ c :: post) =
        pre ++ { c with status := s, reason := r, message := m,
                        lastTransitionTime := now } :: post) ∧
    (∀ (pre post : List Condition) (c : Condition) (t r : String) (s : CondStatus)
       (m : String) (now : Nat),
      (∀ d ∈ pre, d.condType ≠ t) → c.condType = t → c.status = s → c.reason = r →
      setStatusCondition t r s m now (pre ++ c :: post) =
        pre ++ { c with message := m } :: post) ∧
    (∀ (L : List Condition) (t r : String) (s : CondStatus) (m : String) (now1 now2 : Nat),
      (setStatusCondition t r s m now2 (setStatusCondition t r s m now1 L)).map
          Condition.lastTransitionTime =
        (setStatusCondition t r s m now1 L).map Condition.lastTransitionTime) := by
  refine ⟨?_, ?_, ?_, ?_⟩
  · intro L t r s m now h
    exact setStatusCondition_absent h r s m now
  · intro pre post c t r s m now hpre hct hd
    rw [setStatusCondition_append hpre, setStatusCondition_cons_replace hct hd]
  · intro pre post c t r s m now hpre hct hs hr
    rw [setStatusCondition_append hpre, setStatusCondition_cons_msg hct hs hr]
  · intro L t r s m now1 now2
    exact setStatusCondition_ltt_stable t r s m now1 now2 L

/-- C6 witness: on the empty ledger a set appends the fresh entry, and a
second identical set leaves the transition timestamp unchanged. -/
theorem claim_c6_set_condition_witness :
    findStatusCondition [] "Provisioned" = none ∧
    setStatusCondition "Provisioned" "Completed" .condTrue "ok" 4 [] =
      [{ condType := "Provisioned", status := .condTrue, reason := "Completed",
         message := "ok", lastTransitionTime := 4 }] ∧
    (setStatusCondition "Provisioned" "Completed" .condTrue "ok" 9
        (setStatusCondition "Provisioned" "Completed" .condTrue "ok" 4 [])).map
        Condition.lastTransitionTime =
      (setStatusCondition "Provisioned" "Completed" .condTrue "ok" 4 []).map
        Condition.lastTransitionTime := by
  refine ⟨rfl, ?_, ?_⟩
  · exact claim_c6_set_condition.1 [] "Provisioned" "Completed" .condTrue "ok" 4 rfl
  · exact claim_c6_set_condition.2.2.2 [] "Provisioned" "Completed" .condTrue "ok" 4 9

/-- C7: each retried nodepool mutation performs the fresh Get inside the
retried closure — when the first k attempts hit write conflicts and
attempt k reads `fresh` and writes successfully, the object written is the
mutation of `fresh`, the state read at that attempt, not of any earlier
read; when every attempt fails with a conflict, the last error is returned
wrapped with the operation context; and each of the six retried helpers is
an instance of this shared shape with its own mutation and context. -/
theorem claim_c7_retried_mutations :
    (∀ (mutate : NodePool → NodePool) (wrapMsg : String) (schedule : Nat → StoreAttempt)
       (steps k : Nat) (fresh : NodePool),
      k < steps →
      (∀ j, j < k → nodePoolMutationAttempt mutate (schedule j) = .error .conflict) →
      (schedule k).getResult = .ok fresh →
      (schedule k).updateResult = none →
      retriedNodePoolMutation mutate wrapMsg schedule steps = .ok (mutate fresh)) ∧
    (∀ (mutate : NodePool → NodePool) (wrapMsg : String) (schedule : Nat → StoreAttempt)
       (steps : Nat),
      0 < steps →
      (∀ j, j < steps → nodePoolMutationAttempt mutate (schedule j) = .error .conflict) →
      retriedNodePoolMutation mutate wrapMsg schedule steps =
        .error (.wrap wrapMsg .conflict)) ∧
    (∀ (schedule : Nat → StoreAttempt) (steps : Nat) (np : NodePool)
       (ct cr : String) (cs : CondStatus) (m : String) (now : Nat),
      updateNodePoolStatusCondition schedule steps np ct cr cs m now =
        retriedNodePoolMutation (condMutator ct cr cs m now)
          ("failed to update nodepool condition: " ++ np.name) schedule steps) ∧
    (∀ (schedule : Nat → StoreAttempt) (steps : Nat) (np : NodePool),
      updateNodePoolProperties schedule steps np =
        retriedNodePoolMutation
          (fun fresh => { fresh with status :=
            { fresh.status with properties := np.status.properties } })
          "failed to update nodepool properties" schedule steps) ∧
    (∀ (schedule : Nat → StoreAttempt) (steps : Nat) (np : NodePool),
      updateNodePoolSelectedPools schedule steps np =
        retriedNodePoolMutation
          (fun fresh => { fresh with status :=
            { fresh.status with selectedPools := np.status.selectedPools } })
          "failed to update nodepool selectedPools" schedule steps) ∧
    (∀ (schedule : Nat → StoreAttempt) (steps : Nat),
      updateNodePoolPluginStatus schedule steps =
        retriedNodePoolMutation
          (fun fresh => { fresh with status :=
            { fresh.status with hwMgrPlugin := { observedGeneration := fresh.generation } } })
          "failed to update nodepool condition" schedule steps) ∧
    (∀ (schedule : Nat → StoreAttempt) (steps : Nat),
      nodepoolAddFinalizer schedule steps =
        retriedNodePoolMutation (addFinalizer NodepoolFinalizer)
          "failed to add finalizer to nodepool" schedule steps) ∧
    (∀ (schedule : Nat → StoreAttempt) (steps : Nat),
      nodepoolRemoveFinalizer schedule steps =
        retriedNodePoolMutation (removeFinalizer NodepoolFinalizer)
          "failed to remove finalizer from nodepool" schedule steps) := by
  refine ⟨?_, ?_, fun _ _ _ _ _ _ _ _ => rfl, fun _ _ _ => rfl, fun _ _ _ => rfl,
    fun _ _ => rfl, fun _ _ => rfl, fun _ _ => rfl⟩
  · intro mutate wrapMsg schedule steps k fresh hk hfail hget hupd
    have hok : nodePoolMutationAttempt mutate (schedule k) = .ok (mutate fresh) := by
      simp [nodePoolMutationAttempt, hget, hupd]
    have hloop := retryOnConflictOrRetriable_succeeds
      (fun i => nodePoolMutationAttempt mutate (schedule i)) (mutate fresh) steps 0 k hk
      (fun j hj => by simpa using hfail j hj) (by simpa using hok)
    rw [retriedNodePoolMutation, hloop]
  · intro mutate wrapMsg schedule steps hpos hfail
    have hloop := retryOnConflictOrRetriable_exhausts
      (fun i => nodePoolMutationAttempt mutate (schedule i)) steps 0 hpos
      (fun j hj => by simpa using hfail j hj)
    rw [retriedNodePoolMutation, hloop]

/-- Fixture for C7: the stored pool read by the first (conflicting)
attempt. -/
def c7Pool0 : NodePool := { name := "pool-a" }

/-- Fixture for C7: the stored pool read by the second attempt, after a
concurrent writer bumped the generation. -/
def c7Fresh : NodePool := { name := "pool-a", generation := 4 }

/-- Fixture for C7: attempt 0 reads c7Pool0 and conflicts on write;
attempt 1 reads c7Fresh and writes successfully. -/
def c7Schedule : Nat → StoreAttempt :=
  fun j =>
    if j = 0 then { getResult := .ok c7Pool0, updateResult := some .conflict }
    else { getResult := .ok c7Fresh, updateResult := none }

/-- C7 witness: under the concrete two-attempt schedule, the plugin-status
helper writes the observed generation of the state read by the retry, not
of the state read before the conflict. -/
theorem claim_c7_retried_mutations_witness :
    (1 : Nat) < 3 ∧
    updateNodePoolPluginStatus c7Schedule 3 =
      .ok { c7Fresh with status :=
        { c7Fresh.status with hwMgrPlugin := { observedGeneration := c7Fresh.generation } } } := by
  constructor
  · decide
  · have h := claim_c7_retried_mutations
    rw [h.2.2.2.2.2.1 c7Schedule 3]
    exact h.1 _ _ c7Schedule 3 1 c7Fresh (by decide)
      (fun j hj => by
        have hj0 : j = 0 := by omega
        subst hj0
        rfl)
      rfl rfl

/-- C10: CreateNode is idempotent at its public interface: a successful
existence check returns nil with no create; a non-not-found failure of the
check is returned wrapped with no create; any node it reports created
carries exactly one owner reference naming the NodePool with
BlockOwnerDeletion set; and from a not-found check with a successful
create it returns the created node literal. -/
theorem claim_c10_create_node (ns : String) (getResult : Except GoErr Node)
    (createResult : Node → Option GoErr) (np : NodePool)
    (cloudID nodename nodeId nodeNs groupname hwprofile : String) :
    (∀ ex, getResult = .ok ex →
      metal3CreateNode ns getResult createResult np cloudID nodename nodeId nodeNs
        groupname hwprofile = .ok none) ∧
    (∀ e, getResult = .error e → isNotFound e = false →
      metal3CreateNode ns getResult createResult np cloudID nodename nodeId nodeNs
        groupname hwprofile = .error (.wrap "failed to check if node exists" e)) ∧
    (∀ node, metal3CreateNode ns getResult createResult np cloudID nodename nodeId nodeNs
        groupname hwprofile = .ok (some node) →
      getResult = .error .notFound ∧
      node.ownerReferences = [{ apiVersion := np.apiVersion, kind := np.kind,
                                name := np.name, uid := np.uid,
                                blockOwnerDeletion := some true }]) ∧
    (getResult = .error .notFound →
      createResult (metal3CreatedNode ns np cloudID nodename nodeId nodeNs groupname
        hwprofile) = none →
      metal3CreateNode ns getResult createResult np cloudID nodename nodeId nodeNs
        groupname hwprofile =
        .ok (some (metal3CreatedNode ns np cloudID nodename nodeId nodeNs groupname
          hwprofile))) := by
  refine ⟨?_, ?_, ?_, ?_⟩
  · intro ex h
    subst h
    rfl
  · intro e h hnf
    subst h
    simp [metal3CreateNode, hnf]
  · intro node h
    cases hget : getResult with
    | ok ex =>
      subst hget
      simp [metal3CreateNode] at h
    | error e =>
      subst hget
      cases e with
      | notFound =>
        refine ⟨rfl, ?_⟩
        cases hcr : createResult (metal3CreatedNode ns np cloudID nodename nodeId nodeNs
            groupname hwprofile) with
        | some e' => simp [metal3CreateNode, isNotFound, hcr] at h
        | none =>
          have : node = metal3CreatedNode ns np cloudID nodename nodeId nodeNs
              groupname hwprofile := by
            simpa [metal3CreateNode, isNotFound, hcr] using h.symm
          subst this
          rfl
      | conflict => simp [metal3CreateNode, isNotFound] at h
      | msg s => simp [metal3CreateNode, isNotFound] at h
      | wrap s e' => simp [metal3CreateNode, isNotFound] at h
  · intro h hcr
    subst h
    simp [metal3CreateNode, isNotFound, hcr]

/-- C10 witness: a concrete CreateNode call with the node already present
is a no-op, and with a not-found check plus successful create it reports
exactly the created node literal. -/
theorem claim_c10_create_node_witness :
    metal3CreateNode "ns0" (.ok { name := "n1" }) (fun _ => none) { name := "pool-b" }
      "cloud" "n1" "bmh1" "bmhns" "g1" "hp1" = .ok none ∧
    metal3CreateNode "ns0" (.error .notFound) (fun _ => none) { name := "pool-b" }
      "cloud" "n1" "bmh1" "bmhns" "g1" "hp1" =
      .ok (some (metal3CreatedNode "ns0" { name := "pool-b" } "cloud" "n1" "bmh1"
        "bmhns" "g1" "hp1")) := by
  constructor
  · exact (claim_c10_create_node "ns0" (.ok { name := "n1" }) (fun _ => none)
      { name := "pool-b" } "cloud" "n1" "bmh1" "bmhns" "g1" "hp1").1 { name := "n1" } rfl
  · exact (claim_c10_create_node "ns0" (.error .notFound) (fun _ => none)
      { name := "pool-b" } "cloud" "n1" "bmh1" "bmhns" "g1" "hp1").2.2.2 rfl rfl

end OranHwmgr
